import Mathlib

/-!
Verification of the OnRobot 3FG15 gripper library (Python) against its
natural-language specification.

Shallow embedding notes:
* Python machine integers are modelled as `ℤ` (Python ints are unbounded);
  16-bit masking (`& 0xFFFF`) is modelled with `Int.emod · 65536`.
* Python `float` time/progress arithmetic is modelled as exact `ℚ`; the float
  constants 0.9, 0.8, 0.5 appearing in the source are modelled as the exact
  rationals 9/10, 8/10, 1/2 (at every concrete input used below the double
  rounding of the Python computation agrees with the exact rational value).
* `time.time()` and `random.uniform` are injected as explicit arguments:
  every operation that internally samples the clock or the noise generator
  takes those samples as parameters.
* A raised-and-uncaught Python exception is modelled with `Except`; an
  exception that the source catches locally is modelled by the handler's
  behaviour.
-/

/-- Python `int(x)` applied to a float/rational: truncation toward zero.
`Int.tdiv` truncates toward zero, and `q.num / q.den` is in lowest terms,
so this is exact truncation of `q` toward zero. -/
def pyInt (q : ℚ) : ℤ :=
  q.num.tdiv (q.den : ℤ)

/-- Grip type enum from `GripperBase.py` (`EXTERNAL = 0`, `INTERNAL = 1`). -/
inductive GripType where
  | EXTERNAL
  | INTERNAL
deriving DecidableEq, Repr

/-- Integer value of a `GripType`, as Python's `GripType(...).value`. -/
def GripType.value : GripType → ℤ
  | .EXTERNAL => 0
  | .INTERNAL => 1

/-- Status dataclass from `status.py`: four boolean flags. -/
structure ThreeFG15Status where
  busy : Bool
  grip_detected : Bool
  force_grip_detected : Bool
  calibration_ok : Bool
deriving DecidableEq, Repr

/-- Digit `k` (little-endian) of the base-2 string `format(reg_value, '016b')`:
`status[-(k+1)]` in the Python source is the `k`-th least significant binary
digit, 0 when the value is shorter than `k+1` digits. -/
def binDigit (v : Nat) (k : Nat) : Nat :=
  (Nat.digits 2 v).getD k 0

/-- Decoder `ThreeFG15Status.from_register` from `status.py`: indexes the binary
string representation from the end (`status[-1]` = bit 0, ... `status[-4]`
= bit 3) and converts each digit with `bool(int(·))`. -/
def ThreeFG15Status.from_register (reg_value : Nat) : ThreeFG15Status :=
  { busy := binDigit reg_value 0 == 1
    grip_detected := binDigit reg_value 1 == 1
    force_grip_detected := binDigit reg_value 2 == 1
    calibration_ok := binDigit reg_value 3 == 1 }

theorem binDigit_eq_div_mod (k v : Nat) : binDigit v k = v / 2 ^ k % 2 := by
  induction k generalizing v with
  | zero =>
    rcases Nat.eq_zero_or_pos v with h | h
    · subst h; simp [binDigit]
    · unfold binDigit
      rw [Nat.digits_def' (by norm_num : 1 < 2) h]
      simp
  | succ k ih =>
    rcases Nat.eq_zero_or_pos v with h | h
    · subst h; simp [binDigit]
    · unfold binDigit
      rw [Nat.digits_def' (by norm_num : 1 < 2) h]
      show (Nat.digits 2 (v / 2)).getD k 0 = _
      have := ih (v / 2)
      unfold binDigit at this
      rw [this, Nat.div_div_eq_div_mul]
      ring_nf

theorem binDigit_beq_eq_testBit (v k : Nat) :
    (binDigit v k == 1) = v.testBit k := by
  rw [Nat.testBit_to_div_mod, binDigit_eq_div_mod]
  have h2 : v / 2 ^ k % 2 < 2 := Nat.mod_lt _ (by norm_num)
  interval_cases h : (v / 2 ^ k % 2) <;> simp [h]

/-! ## Register map and control constants from `GripperBase.py` -/

def REG_TARGET_FORCE : Nat := 0
def REG_TARGET_DIAMETER : Nat := 1
def REG_GRIP_TYPE : Nat := 2
def REG_CONTROL : Nat := 3
def REG_STATUS : Nat := 256
def REG_RAW_DIAMETER : Nat := 257
def REG_DIAMETER_OFFSET : Nat := 258
def REG_FORCE_APPLIED : Nat := 259
def REG_FINGER_LENGTH : Nat := 270
def REG_FINGER_POSITION : Nat := 272
def REG_FINGERTIP_OFFSET : Nat := 273
def REG_MIN_DIAMETER : Nat := 513
def REG_MAX_DIAMETER : Nat := 514

def CMD_GRIP : ℤ := 1
def CMD_MOVE : ℤ := 2
def CMD_STOP : ℤ := 4
def CMD_FLEXIBLE_GRIP : ℤ := 5

/-! ## `ThreeFG15Simulator` state and operations -/

/-- Error raised by an operation of the simulator and not caught inside it;
`invalidArgument` models the Python `ValueError` raised by `GripType(value)`
on a value other than 0/1. -/
inductive SimError where
  | invalidArgument
deriving DecidableEq, Repr

/-- Full mutable state of a `ThreeFG15Simulator` instance: constructor
parameters, the current/target motion state, the detection flags, the
movement timer and the `_registers` dictionary (absent key = `none`). -/
structure SimState where
  min_diameter : ℤ
  max_diameter : ℤ
  finger_length : ℤ
  simulation_speed : ℚ
  enable_noise : Bool
  current_diameter : ℤ
  target_diameter : ℤ
  current_force : ℤ
  target_force : ℤ
  grip_type : GripType
  is_busy : Bool
  grip_detected : Bool
  force_grip_detected : Bool
  calibration_ok : Bool
  movement_start_time : Option ℚ
  movement_duration : ℚ
  registers : Nat → Option ℤ

/-- One sampled environment for a `_update_movement` call: the `time.time()`
value and the three `random.uniform` samples consumed by the three
`_add_noise` calls (in source order: raw diameter, diameter offset,
force applied). -/
structure StepArgs where
  now : ℚ
  n1 : ℚ
  n2 : ℚ
  n3 : ℚ
deriving DecidableEq, Repr

/-- Update one key of the `_registers` dictionary. -/
def regSet (r : Nat → Option ℤ) (a : Nat) (v : ℤ) : Nat → Option ℤ :=
  fun b => if b = a then some v else r b

/-- Method `_calculate_status_register`: or-together bit 0 (busy), bit 1 (grip),
bit 2 (force grip), bit 3 (calibration). -/
def calculateStatusRegister (s : SimState) : ℤ :=
  let st1 : Nat := if s.is_busy then 0 ||| 1 else 0
  let st2 : Nat := if s.grip_detected then st1 ||| 2 else st1
  let st3 : Nat := if s.force_grip_detected then st2 ||| 4 else st2
  let st4 : Nat := if s.calibration_ok then st3 ||| 8 else st3
  (st4 : ℤ)

/-- Method `_add_noise` with the sampled uniform noise `eta` passed explicitly:
`max(0, int(value * (1 + noise)))` when noise is enabled, identity
otherwise. -/
def addNoise (s : SimState) (value : ℤ) (eta : ℚ) : ℤ :=
  if s.enable_noise then max 0 (pyInt ((value : ℚ) * (1 + eta))) else value

/-- The ease-in-out curve of `_update_movement`:
`2·p²` for `p < 0.5`, else `1 − 2·(1−p)²`. -/
def easeInOut (progress : ℚ) : ℚ :=
  if progress < 1/2 then 2 * progress * progress
  else 1 - 2 * (1 - progress) * (1 - progress)

/-- Method `_update_grip_detection`: grip iff current diameter is below 90% of the
maximum; force grip additionally requires current force strictly above 80%
of the target force. -/
def updateGripDetection (s : SimState) : SimState :=
  if (s.current_diameter : ℚ) < (s.max_diameter : ℚ) * (9/10) then
    { s with grip_detected := true
             force_grip_detected :=
               decide ((s.target_force : ℚ) * (8/10) < (s.current_force : ℚ)) }
  else
    { s with grip_detected := false, force_grip_detected := false }

/-- Method `_update_movement`, with the clock and noise samples in `a`. Returns the
state unchanged when not busy or no movement start time is set; otherwise
interpolates the diameter from the last reported raw-diameter register
toward the target, ramps the force, completes the movement when
`progress ≥ 1`, and rewrites the four telemetry registers. -/
def updateMovement (s : SimState) (a : StepArgs) : SimState :=
  match s.movement_start_time with
  | none => s
  | some t0 =>
    if s.is_busy = false then s
    else
      let elapsed := a.now - t0
      let progress := min 1 (elapsed / s.movement_duration)
      let t := easeInOut progress
      let start_diameter := (s.registers REG_RAW_DIAMETER).getD s.current_diameter
      let diameter_diff := s.target_diameter - start_diameter
      let s1 := { s with
        current_diameter := start_diameter + pyInt ((diameter_diff : ℚ) * t)
        current_force :=
          if 0 < |diameter_diff| then pyInt ((s.target_force : ℚ) * min 1 (progress * 2))
          else s.target_force }
      let s2 :=
        if progress ≥ 1 then
          updateGripDetection
            { s1 with is_busy := false, movement_start_time := none,
                      current_diameter := s.target_diameter,
                      current_force := s.target_force }
        else s1
      let regs1 := regSet s2.registers REG_RAW_DIAMETER (addNoise s2 s2.current_diameter a.n1)
      let regs2 := regSet regs1 REG_DIAMETER_OFFSET (addNoise s2 s2.current_diameter a.n2)
      let regs3 := regSet regs2 REG_FORCE_APPLIED (addNoise s2 s2.current_force a.n3)
      { s2 with registers := regSet regs3 REG_STATUS (calculateStatusRegister s2) }

/-- Method `_start_movement` with the sampled `time.time()` value `tNow`. -/
def startMovement (s : SimState) (tNow : ℚ) : SimState :=
  { s with is_busy := true
           movement_start_time := some tNow
           movement_duration := (1/2) / s.simulation_speed }

/-- Constructor `GripType(value)`: validated parse, `ValueError` outside {0, 1}. -/
def gripTypeOfInt (value : ℤ) : Except SimError GripType :=
  if value = 0 then .ok .EXTERNAL
  else if value = 1 then .ok .INTERNAL
  else .error .invalidArgument

/-- Method `ThreeFG15Simulator.write_register`: dispatch on the register address
(target force and diameter are clamped into the internal state, grip type is
parsed, control values drive the movement state machine), then store the
*raw* value in the `_registers` dictionary and run `_update_movement`.
`tWrite` is the `time.time()` sample of `_start_movement`, `a` the
environment of the trailing `_update_movement` call. -/
def write_register (s : SimState) (reg : Nat) (value : ℤ) (tWrite : ℚ)
    (a : StepArgs) : Except SimError SimState := do
  let s1 ←
    if reg = REG_TARGET_FORCE then
      .ok { s with target_force := max 0 (min 1000 value) }
    else if reg = REG_TARGET_DIAMETER then
      .ok { s with target_diameter := max s.min_diameter (min s.max_diameter value) }
    else if reg = REG_GRIP_TYPE then do
      let gt ← gripTypeOfInt value
      .ok { s with grip_type := gt }
    else if reg = REG_CONTROL then
      if value = CMD_GRIP ∨ value = CMD_MOVE ∨ value = CMD_FLEXIBLE_GRIP then
        .ok (startMovement s tWrite)
      else if value = CMD_STOP then
        .ok { s with is_busy := false, movement_start_time := none }
      else .ok s
    else .ok s
  let s2 := { s1 with registers := regSet s1.registers reg value }
  .ok (updateMovement s2 a)

/-- Method `ThreeFG15Simulator.read_registers`: run `_update_movement`, then return
the requested registers (0 for an absent key) together with the state after
the update. -/
def read_registers (s : SimState) (reg : Nat) (count : Nat) (a : StepArgs) :
    List ℤ × SimState :=
  let s' := updateMovement s a
  ((List.range count).map fun i => (s'.registers (reg + i)).getD 0, s')

/-- The `_registers` dictionary built by `_initialize_registers`. -/
def initRegisters (s : SimState) : Nat → Option ℤ := fun a =>
  if a = REG_TARGET_FORCE then some 500
  else if a = REG_TARGET_DIAMETER then some s.max_diameter
  else if a = REG_GRIP_TYPE then some 0
  else if a = REG_CONTROL then some 0
  else if a = REG_STATUS then some (calculateStatusRegister s)
  else if a = REG_RAW_DIAMETER then some s.current_diameter
  else if a = REG_DIAMETER_OFFSET then some s.current_diameter
  else if a = REG_FORCE_APPLIED then some 0
  else if a = REG_FINGER_LENGTH then some s.finger_length
  else if a = REG_FINGER_POSITION then some 1
  else if a = REG_FINGERTIP_OFFSET then some 0
  else if a = REG_MIN_DIAMETER then some s.min_diameter
  else if a = REG_MAX_DIAMETER then some s.max_diameter
  else none

/-- Constructor `ThreeFG15Simulator.__init__` (argument order as in the source:
min diameter, max diameter, finger length, simulation speed, noise flag). -/
def initSim (min_diameter max_diameter finger_length : ℤ)
    (simulation_speed : ℚ) (enable_noise : Bool) : SimState :=
  let s : SimState :=
    { min_diameter := min_diameter
      max_diameter := max_diameter
      finger_length := finger_length
      simulation_speed := simulation_speed
      enable_noise := enable_noise
      current_diameter := max_diameter
      target_diameter := max_diameter
      current_force := 0
      target_force := 500
      grip_type := .EXTERNAL
      is_busy := false
      grip_detected := false
      force_grip_detected := false
      calibration_ok := true
      movement_start_time := none
      movement_duration := 1/2
      registers := fun _ => none }
  { s with registers := initRegisters s }

/-- Environment of one `write_register` call issued by a high-level command:
the `time.time()` sample seen by `_start_movement` and the environment of
the trailing `_update_movement`. -/
structure WriteArgs where
  t : ℚ
  upd : StepArgs
deriving DecidableEq, Repr

/-- Method `GripperBase.close_gripper` as executed by the simulator: read the
minimum-diameter register; on an empty result the raised `RuntimeError` is
caught and the operation aborts; otherwise write target force, target
diameter, grip type EXTERNAL and the GRIP control opcode in order.
A `ValueError` (not a `RuntimeError`) would propagate. -/
def close_gripper (s : SimState) (force_val : ℤ) (a0 : StepArgs)
    (w1 w2 w3 w4 : WriteArgs) : Except SimError SimState :=
  let r := read_registers s REG_MIN_DIAMETER 1 a0
  match r.1 with
  | [] => .ok r.2
  | d :: _ => do
    let s1 ← write_register r.2 REG_TARGET_FORCE force_val w1.t w1.upd
    let s2 ← write_register s1 REG_TARGET_DIAMETER d w2.t w2.upd
    let s3 ← write_register s2 REG_GRIP_TYPE GripType.EXTERNAL.value w3.t w3.upd
    write_register s3 REG_CONTROL CMD_GRIP w4.t w4.upd

/-- Fold a list of `_update_movement` environments over the state (the
polling loop that waits for the movement to finish). -/
def applyUpdates (s : SimState) (l : List StepArgs) : SimState :=
  l.foldl updateMovement s

/-! ## `GripperBase` high-level operations over an abstract backing device

`open_gripper` / `close_gripper` are defined once in `GripperBase.py`
against the abstract `read_registers` / `write_register` primitives; here
they are embedded over an abstract device oracle, observing the sequence of
register writes the operation issues. -/

/-- Abstract backing device for a `GripperBase` subclass: the result of a
one-register read (`none` models a raised `RuntimeError`), and whether a
given single-register write raises a `RuntimeError`. -/
structure Dev where
  readReg : Nat → Option (List ℤ)
  writeFails : Nat → ℤ → Bool

/-- Issue a list of single-register writes in order; a write whose call
raises stops the sequence (the exception propagates to the surrounding
handler). The returned list is the sequence of writes actually issued. -/
def issueWrites (dev : Dev) : List (Nat × ℤ) → List (Nat × ℤ)
  | [] => []
  | w :: rest =>
    if dev.writeFails w.1 w.2 then [w] else w :: issueWrites dev rest

/-- Method `GripperBase.open_gripper` observed as the sequence of register writes
issued: read the max-diameter register (failure or an empty result raises a
`RuntimeError`, caught by the operation's own handler, aborting it), then
write force, target diameter = max diameter, grip type EXTERNAL, and the
GRIP opcode, in that order. -/
def GripperBase.open_gripper (dev : Dev) (force_val : ℤ) : List (Nat × ℤ) :=
  match dev.readReg REG_MAX_DIAMETER with
  | none => []
  | some [] => []
  | some (d :: _) =>
    issueWrites dev
      [(REG_TARGET_FORCE, force_val), (REG_TARGET_DIAMETER, d),
       (REG_GRIP_TYPE, GripType.EXTERNAL.value), (REG_CONTROL, CMD_GRIP)]

/-- Method `GripperBase.close_gripper` observed as the sequence of register writes
issued; same shape as `open_gripper` with the min-diameter register. -/
def GripperBase.close_gripper (dev : Dev) (force_val : ℤ) : List (Nat × ℤ) :=
  match dev.readReg REG_MIN_DIAMETER with
  | none => []
  | some [] => []
  | some (d :: _) =>
    issueWrites dev
      [(REG_TARGET_FORCE, force_val), (REG_TARGET_DIAMETER, d),
       (REG_GRIP_TYPE, GripType.EXTERNAL.value), (REG_CONTROL, CMD_GRIP)]

/-! ## `GripperDevice` (register gateway) from `simple_modbus_server.py` -/

/-- A high-level call the gateway issues on its backing gripper. -/
inductive GAction where
  | openGripper (force : ℤ)
  | closeGripper (force : ℤ)
  | moveGripper (diameter force : ℤ) (grip_type : GripType)
  | flexGrip (diameter force : ℤ) (grip_type : GripType)
  | setControl (cmd : ℤ)
  | setTargetForce (force : ℤ)
  | setTargetDiameter (diameter : ℤ)
  | setGripType (grip_type : GripType)
deriving DecidableEq, Repr

/-- Oracle for the gateway's backing gripper: whether a given call raises an
exception (each handler of the gateway catches those), the `get_status()`
result (`none` when the status read fails), and the current diameter in
0.1 mm units as the gateway computes it (`int(round(get_raw_diameter()*10))`,
`none` when the diameter read fails). -/
structure BackingGripper where
  raises : GAction → Bool
  statusResult : Option ThreeFG15Status
  rawDiameterTenths : Option ℤ

/-- Gateway state: the four register blocks, the connection flag, the
address mapping fixed at construction, the live min/max diameter learned at
connect time, and (model artifact) the list of calls issued to the backing
gripper so far. -/
structure GripperDevice where
  coils : List Bool
  hrs : List ℤ
  dis : List Bool
  irs : List ℤ
  connected : Bool
  open_cmd_coil : Nat
  status_coil : Nat
  close_cmd_coil : Option Nat
  move_cmd_coil : Option Nat
  flex_cmd_coil : Option Nat
  stop_cmd_coil : Option Nat
  status_open_coil : Nat
  status_closed_coil : Nat
  status_grip_coil : Nat
  hr_force_index : Nat
  hr_diameter_index : Nat
  hr_griptype_index : Nat
  hr_cmd_index : ℤ
  ir_width_index : Nat
  min_d : Option ℤ
  max_d : Option ℤ
  trace : List GAction

/-- Record a call issued on the backing gripper. -/
def callBG (g : GripperDevice) (a : GAction) : GripperDevice :=
  { g with trace := g.trace ++ [a] }

/-- Method `SimpleDevice.set_holding_registers`: `hrs[address+i] = int(v) & 0xFFFF`
for each value (addresses assumed in range; Python raises `IndexError`
otherwise). -/
def writeHrs : List ℤ → Nat → List ℤ → List ℤ
  | hrs, _, [] => hrs
  | hrs, a, v :: vs => writeHrs (hrs.set a (v.emod 65536)) (a + 1) vs

/-- Clamp a diameter to the live min/max learned at connect time (each bound
applied only when known). -/
def clampOpt (d : ℤ) (mn mx : Option ℤ) : ℤ :=
  let d1 := match mn with | some m => max m d | none => d
  match mx with | some mxv => min mxv d1 | none => d1

/-- Decode of `gtv == GripType.INTERNAL.value` used by the gateway. -/
def gripTypeOfHr (gtv : ℤ) : GripType :=
  if gtv = GripType.INTERNAL.value then .INTERNAL else .EXTERNAL

/-- The force-register side effect of a holding-register write: when the
force index was just written (and is in range), call `set_target_force`
with the stored value; an exception from the call is caught. -/
def hrForceStep (g : GripperDevice) (address len : Nat) : GripperDevice :=
  if address ≤ g.hr_force_index ∧ g.hr_force_index < address + len ∧
      g.hr_force_index < g.hrs.length then
    callBG g (.setTargetForce (g.hrs.getD g.hr_force_index 0))
  else g

/-- The diameter/grip-type side effect: when either index was just written
(and both are in range), call `set_target_diameter` with the clamped stored
diameter and then `set_grip_type`; if the diameter call raises, the
grip-type call is skipped (one shared handler). -/
def hrDiameterStep (bg : BackingGripper) (g : GripperDevice) (address len : Nat) :
    GripperDevice :=
  if (address ≤ g.hr_diameter_index ∧ g.hr_diameter_index < address + len ∨
      address ≤ g.hr_griptype_index ∧ g.hr_griptype_index < address + len) ∧
      g.hr_diameter_index < g.hrs.length ∧ g.hr_griptype_index < g.hrs.length then
    let diameter := clampOpt (g.hrs.getD g.hr_diameter_index 0) g.min_d g.max_d
    let grip_type := gripTypeOfHr (g.hrs.getD g.hr_griptype_index 0)
    let g' := callBG g (.setTargetDiameter diameter)
    if bg.raises (.setTargetDiameter diameter) then g'
    else callBG g' (.setGripType grip_type)
  else g

/-- The one-shot command-register side effect: when the configured command
index (optional, `-1` disables it) was just written, read force, clamped
diameter and grip type from their holding registers, dispatch the opcode
(1=MOVE, 2=FLEX, 3=STOP, 4=OPEN, 5=CLOSE; an exception from the call is
caught), then clear the command register to 0 in a path that runs whether
or not the call raised. `_wait_ready` is a bounded busy-poll with no state
effect and is not modelled. -/
def hrCmdStep (g : GripperDevice) (address len : Nat) : GripperDevice :=
  if 0 ≤ g.hr_cmd_index ∧ (address : ℤ) ≤ g.hr_cmd_index ∧
      g.hr_cmd_index < (address : ℤ) + (len : ℤ) ∧
      g.hr_cmd_index < (g.hrs.length : ℤ) then
    let ci := g.hr_cmd_index.toNat
    let cmd := g.hrs.getD ci 0
    let force := if g.hr_force_index < g.hrs.length
      then g.hrs.getD g.hr_force_index 0 else 500
    let diameter0 := if g.hr_diameter_index < g.hrs.length
      then g.hrs.getD g.hr_diameter_index 0 else 100
    let diameter := clampOpt diameter0 g.min_d g.max_d
    let gtv := if g.hr_griptype_index < g.hrs.length
      then g.hrs.getD g.hr_griptype_index 0 else 0
    let grip_type := gripTypeOfHr gtv
    let g1 :=
      if cmd = 1 then callBG g (.moveGripper diameter force grip_type)
      else if cmd = 2 then callBG g (.flexGrip diameter force grip_type)
      else if cmd = 3 then callBG g (.setControl CMD_STOP)
      else if cmd = 4 then callBG g (.openGripper force)
      else if cmd = 5 then callBG g (.closeGripper force)
      else g
    { g1 with hrs := writeHrs (g1.hrs.set ci 0) ci [0] }
  else g

/-- Method `GripperDevice.set_holding_registers`: store the raw (16-bit masked)
values, then — when connected — apply the force, diameter/grip-type and
command side effects in source order. -/
def set_holding_registers (bg : BackingGripper) (g : GripperDevice)
    (address : Nat) (values : List ℤ) : GripperDevice :=
  let g1 := { g with hrs := writeHrs g.hrs address values }
  if g1.connected = false then g1
  else
    let g2 := hrForceStep g1 address values.length
    let g3 := hrDiameterStep bg g2 address values.length
    hrCmdStep g3 address values.length

/-- Method `SimpleDevice.get_holding_registers`. -/
def get_holding_registers (g : GripperDevice) (address count : Nat) : List ℤ :=
  (List.range count).map fun i => g.hrs.getD (address + i) 0

/-- Method `GripperDevice.get_coils`: start from the stored coil values; when
connected, overwrite the configured status coils from a live status read:
ready = not busy (busy defaults to `True` when the status read fails),
grip = grip or force grip (defaults to `False`), open/closed compare the
current diameter against the learned bounds with 0.5 mm tolerance (left as
stored when the diameter is unavailable). -/
def get_coils (bg : BackingGripper) (g : GripperDevice) (address count : Nat) :
    List Bool :=
  (List.range count).map fun i =>
    let idx := address + i
    let stored := g.coils.getD idx false
    if g.connected = false then stored
    else
      let grip := match bg.statusResult with
        | some st => st.grip_detected || st.force_grip_detected
        | none => false
      let busy := match bg.statusResult with
        | some st => st.busy
        | none => true
      let open_bit := match bg.rawDiameterTenths, g.max_d with
        | some cur_d, some mxd => decide (mxd - 5 ≤ cur_d)
        | _, _ => false
      let closed_bit := match bg.rawDiameterTenths, g.min_d with
        | some cur_d, some mnd => decide (cur_d ≤ mnd + 5)
        | _, _ => false
      if idx = g.status_coil then !busy
      else if idx = g.status_grip_coil then grip
      else if idx = g.status_open_coil then open_bit
      else if idx = g.status_closed_coil then closed_bit
      else stored

/-! ## Helper lemmas -/

theorem updateMovement_not_busy (s : SimState) (a : StepArgs)
    (h : s.is_busy = false) : updateMovement s a = s := by
  unfold updateMovement
  cases s.movement_start_time <;> simp [h]

theorem updateMovement_preserves (s : SimState) (a : StepArgs) :
    (updateMovement s a).target_force = s.target_force ∧
    (updateMovement s a).target_diameter = s.target_diameter ∧
    (updateMovement s a).max_diameter = s.max_diameter ∧
    (updateMovement s a).min_diameter = s.min_diameter ∧
    (updateMovement s a).grip_type = s.grip_type ∧
    (updateMovement s a).enable_noise = s.enable_noise := by
  unfold updateMovement updateGripDetection
  cases s.movement_start_time with
  | none => simp
  | some t0 =>
    by_cases hb : s.is_busy = false
    · simp [hb]
    · simp only [hb, if_false, Bool.false_eq_true]
      split_ifs <;> simp

theorem updateMovement_registers_of_ne (s : SimState) (a : StepArgs) (addr : Nat)
    (h1 : addr ≠ REG_STATUS) (h2 : addr ≠ REG_RAW_DIAMETER)
    (h3 : addr ≠ REG_DIAMETER_OFFSET) (h4 : addr ≠ REG_FORCE_APPLIED) :
    (updateMovement s a).registers addr = s.registers addr := by
  unfold updateMovement updateGripDetection
  cases s.movement_start_time with
  | none => rfl
  | some t0 =>
    by_cases hb : s.is_busy = false
    · simp [hb]
    · simp only [hb, if_false, Bool.false_eq_true]
      split_ifs <;> simp [regSet, h1, h2, h3, h4]

theorem getD_set_self (l : List ℤ) (i : Nat) (v : ℤ) (h : i < l.length) :
    (l.set i v).getD i 0 = v := by
  simp [List.getD_eq_getElem?_getD, List.getElem?_set_self, h]

theorem read_registers_one (s : SimState) (reg : Nat) (a : StepArgs) :
    (read_registers s reg 1 a).1 = [((updateMovement s a).registers (reg + 0)).getD 0] := rfl

/-! ## C5: status decoder -/

/-- C5: for every 16-bit register value `v`, `ThreeFG15Status.from_register`
sets `busy` to bit 0 of `v`, `grip_detected` to bit 1,
`force_grip_detected` to bit 2 and `calibration_ok` to bit 3, ignoring all
higher bits; in particular `0b0011` decodes to busy and grip detected only,
and `0b1100` decodes to force grip detected and calibration ok only. -/
theorem C5_status_decode (v : Nat) (hv : v < 65536) :
    ThreeFG15Status.from_register v =
      { busy := v.testBit 0, grip_detected := v.testBit 1,
        force_grip_detected := v.testBit 2, calibration_ok := v.testBit 3 } ∧
    ThreeFG15Status.from_register 3 =
      { busy := true, grip_detected := true,
        force_grip_detected := false, calibration_ok := false } ∧
    ThreeFG15Status.from_register 12 =
      { busy := false, grip_detected := false,
        force_grip_detected := true, calibration_ok := true } := by
  have hform : ∀ w : Nat, ThreeFG15Status.from_register w =
      { busy := w.testBit 0, grip_detected := w.testBit 1,
        force_grip_detected := w.testBit 2, calibration_ok := w.testBit 3 } := by
    intro w
    unfold ThreeFG15Status.from_register
    simp [binDigit_beq_eq_testBit]
  refine ⟨hform v, ?_, ?_⟩ <;> rw [hform] <;> decide

/-- Witness for `C5_status_decode` at `v = 3`. -/
theorem C5_status_decode_witness :
    (3 : Nat) < 65536 ∧
    (ThreeFG15Status.from_register 3 =
      { busy := Nat.testBit 3 0, grip_detected := Nat.testBit 3 1,
        force_grip_detected := Nat.testBit 3 2, calibration_ok := Nat.testBit 3 3 } ∧
    ThreeFG15Status.from_register 3 =
      { busy := true, grip_detected := true,
        force_grip_detected := false, calibration_ok := false } ∧
    ThreeFG15Status.from_register 12 =
      { busy := false, grip_detected := false,
        force_grip_detected := true, calibration_ok := true }) :=
  ⟨by norm_num, C5_status_decode 3 (by norm_num)⟩

/-! ## C7: grip-type register write validation -/

/-- C7: writing `v` to the simulator's grip-type register sets the engine's
grip type to EXTERNAL for `v = 0` and INTERNAL for `v = 1`; any other value
raises an invalid-argument error (`ValueError` from `GripType(value)`),
leaving the engine state unchanged — in particular the grip type is never
silently defaulted. -/
theorem C7_grip_type_write (s : SimState) (v : ℤ) (tW : ℚ) (a : StepArgs) :
    (v = 0 → ∃ s1, write_register s REG_GRIP_TYPE v tW a = .ok s1 ∧
        s1.grip_type = GripType.EXTERNAL) ∧
    (v = 1 → ∃ s1, write_register s REG_GRIP_TYPE v tW a = .ok s1 ∧
        s1.grip_type = GripType.INTERNAL) ∧
    (v ≠ 0 → v ≠ 1 →
      write_register s REG_GRIP_TYPE v tW a = .error SimError.invalidArgument) := by
  refine ⟨?_, ?_, ?_⟩
  · rintro rfl
    refine ⟨_, rfl, ?_⟩
    rw [(updateMovement_preserves _ a).2.2.2.2.1]
  · rintro rfl
    refine ⟨_, rfl, ?_⟩
    rw [(updateMovement_preserves _ a).2.2.2.2.1]
  · intro h0 h1
    simp only [write_register, REG_GRIP_TYPE, REG_TARGET_FORCE, REG_TARGET_DIAMETER,
      gripTypeOfInt, h0, h1, if_false, ite_false]
    rfl

/-- Witness for `C7_grip_type_write` at `v = 0`, `v = 1` and `v = 7`. -/
theorem C7_grip_type_write_witness :
    (∃ s1, write_register (initSim 0 1000 500 1 false) REG_GRIP_TYPE 0 0 ⟨0, 0, 0, 0⟩ = .ok s1 ∧
        s1.grip_type = GripType.EXTERNAL) ∧
    (∃ s1, write_register (initSim 0 1000 500 1 false) REG_GRIP_TYPE 1 0 ⟨0, 0, 0, 0⟩ = .ok s1 ∧
        s1.grip_type = GripType.INTERNAL) ∧
    write_register (initSim 0 1000 500 1 false) REG_GRIP_TYPE 7 0 ⟨0, 0, 0, 0⟩ =
      .error SimError.invalidArgument :=
  ⟨(C7_grip_type_write (initSim 0 1000 500 1 false) 0 0 ⟨0, 0, 0, 0⟩).1 rfl,
   (C7_grip_type_write (initSim 0 1000 500 1 false) 1 0 ⟨0, 0, 0, 0⟩).2.1 rfl,
   (C7_grip_type_write (initSim 0 1000 500 1 false) 7 0 ⟨0, 0, 0, 0⟩).2.2
     (by norm_num) (by norm_num)⟩

/-! ## C2: register write/read-back -/

/-- C2 counterexample: writing 2000 to the target-force register of a fresh
simulator and then reading the register back yields the raw value 2000, not
`clamp(2000, 0, 1000) = 1000` — only the internal target force is clamped,
the `_registers` dictionary stores the unclamped written value. -/
theorem C2_counterexample :
    ((write_register (initSim 0 1000 500 1 false) REG_TARGET_FORCE 2000 0 ⟨0, 0, 0, 0⟩).map
        (fun s => (read_registers s REG_TARGET_FORCE 1 ⟨0, 0, 0, 0⟩).1)) = .ok [2000] ∧
    max 0 (min 1000 (2000 : ℤ)) = 1000 ∧ (2000 : ℤ) ≠ 1000 :=
  ⟨rfl, by norm_num, by norm_num⟩

/-- C2 amended: writing `f` to the target-force register sets the internal
target force to `clamp(f, 0, 1000)`, but a read-back of the register returns
the raw written value `f`; likewise writing `d` to the target-diameter
register sets the internal target diameter to
`clamp(d, min_diameter, max_diameter)` while the register reads back as the
raw `d`. -/
theorem C2_amended_write_read (s : SimState) (f d : ℤ) (tW : ℚ) (a b : StepArgs) :
    (∃ s1, write_register s REG_TARGET_FORCE f tW a = .ok s1 ∧
        s1.target_force = max 0 (min 1000 f) ∧
        (read_registers s1 REG_TARGET_FORCE 1 b).1 = [f]) ∧
    (∃ s2, write_register s REG_TARGET_DIAMETER d tW a = .ok s2 ∧
        s2.target_diameter = max s.min_diameter (min s.max_diameter d) ∧
        (read_registers s2 REG_TARGET_DIAMETER 1 b).1 = [d]) := by
  constructor
  · refine ⟨_, rfl, ?_, ?_⟩
    · rw [(updateMovement_preserves _ a).1]
    · rw [read_registers_one,
          updateMovement_registers_of_ne _ b _ (by decide) (by decide) (by decide) (by decide),
          updateMovement_registers_of_ne _ a _ (by decide) (by decide) (by decide) (by decide)]
      simp [regSet, REG_TARGET_FORCE]
  · refine ⟨_, rfl, ?_, ?_⟩
    · rw [(updateMovement_preserves _ a).2.1]
    · rw [read_registers_one,
          updateMovement_registers_of_ne _ b _ (by decide) (by decide) (by decide) (by decide),
          updateMovement_registers_of_ne _ a _ (by decide) (by decide) (by decide) (by decide)]
      simp [regSet, REG_TARGET_DIAMETER]

/-! ## C8: deterministic telemetry reads with noise disabled -/

/-- The telemetry registers agree with the internal state (the condition the
update step re-establishes after every movement step when noise is
disabled, and that holds for a freshly constructed simulator). -/
def telemetryConsistent (s : SimState) : Prop :=
  s.registers REG_RAW_DIAMETER = some s.current_diameter ∧
  s.registers REG_DIAMETER_OFFSET = some s.current_diameter ∧
  s.registers REG_FORCE_APPLIED = some s.current_force

instance (s : SimState) : Decidable (telemetryConsistent s) := by
  unfold telemetryConsistent; infer_instance

/-- C8: with measurement noise disabled and the engine not busy, two
successive `read_registers` calls on the same telemetry address return
identical values, each equal to the corresponding internal state value
(current diameter for the raw/offset diameter registers, current force for
the applied-force register). -/
theorem C8_repeated_reads (s : SimState) (a b : StepArgs) (addr : Nat)
    (hnoise : s.enable_noise = false)
    (hbusy : s.is_busy = false)
    (hcons : telemetryConsistent s)
    (haddr : addr = REG_RAW_DIAMETER ∨ addr = REG_DIAMETER_OFFSET ∨ addr = REG_FORCE_APPLIED) :
    (read_registers s addr 1 a).1 = (read_registers (read_registers s addr 1 a).2 addr 1 b).1 ∧
    ((addr = REG_RAW_DIAMETER ∨ addr = REG_DIAMETER_OFFSET) →
      (read_registers s addr 1 a).1 = [s.current_diameter]) ∧
    (addr = REG_FORCE_APPLIED → (read_registers s addr 1 a).1 = [s.current_force]) := by
  have hid : updateMovement s a = s := updateMovement_not_busy s a hbusy
  have hid2 : updateMovement s b = s := updateMovement_not_busy s b hbusy
  have hsnd : (read_registers s addr 1 a).2 = s := by
    unfold read_registers; rw [hid]
  obtain ⟨hc1, hc2, hc3⟩ := hcons
  refine ⟨by rw [hsnd, read_registers_one, read_registers_one, hid, hid2], ?_, ?_⟩
  · rintro (rfl | rfl) <;> rw [read_registers_one, hid] <;> simp [hc1, hc2]
  · rintro rfl
    rw [read_registers_one, hid]
    simp [hc3]

/-- Witness for `C8_repeated_reads` on a freshly constructed noise-free
simulator at the raw-diameter register. -/
theorem C8_repeated_reads_witness :
    (initSim 0 1000 500 1 false).enable_noise = false ∧
    (initSim 0 1000 500 1 false).is_busy = false ∧
    telemetryConsistent (initSim 0 1000 500 1 false) ∧
    ((read_registers (initSim 0 1000 500 1 false) REG_RAW_DIAMETER 1 ⟨0, 0, 0, 0⟩).1 =
        (read_registers (read_registers (initSim 0 1000 500 1 false) REG_RAW_DIAMETER 1 ⟨0, 0, 0, 0⟩).2
          REG_RAW_DIAMETER 1 ⟨1, 0, 0, 0⟩).1 ∧
      ((REG_RAW_DIAMETER = REG_RAW_DIAMETER ∨ REG_RAW_DIAMETER = REG_DIAMETER_OFFSET) →
        (read_registers (initSim 0 1000 500 1 false) REG_RAW_DIAMETER 1 ⟨0, 0, 0, 0⟩).1 =
          [(initSim 0 1000 500 1 false).current_diameter]) ∧
      (REG_RAW_DIAMETER = REG_FORCE_APPLIED →
        (read_registers (initSim 0 1000 500 1 false) REG_RAW_DIAMETER 1 ⟨0, 0, 0, 0⟩).1 =
          [(initSim 0 1000 500 1 false).current_force])) :=
  ⟨rfl, rfl, by decide,
   C8_repeated_reads (initSim 0 1000 500 1 false) ⟨0, 0, 0, 0⟩ ⟨1, 0, 0, 0⟩
     REG_RAW_DIAMETER rfl rfl (by decide) (Or.inl rfl)⟩

/-! ## C10: gateway ready coil on status-read failure -/

/-- C10: when the backing gripper's status read fails (`get_status()`
returns no value), a gateway read covering the configured ready status coil
returns `False` for that coil — unknown status is treated as busy. -/
theorem C10_ready_false_on_status_failure (bg : BackingGripper) (g : GripperDevice)
    (address count i : Nat)
    (hconn : g.connected = true)
    (hst : bg.statusResult = none)
    (hi : i < count)
    (hidx : address + i = g.status_coil) :
    (get_coils bg g address count).getD i true = false := by
  unfold get_coils
  rw [List.getD_eq_getElem?_getD]
  rw [List.getElem?_map]
  simp only [List.getElem?_range hi, Option.map_some]
  simp [hconn, hst, hidx]

/-- Witness for `C10_ready_false_on_status_failure`: a connected gateway
whose backing status read fails, read at the ready coil (index 2). -/
theorem C10_ready_false_witness :
    (get_coils
      { raises := fun _ => false, statusResult := none, rawDiameterTenths := none }
      { coils := [true, true, true, true, true, true], hrs := [0, 0, 0, 0],
        dis := [], irs := [0], connected := true,
        open_cmd_coil := 0, status_coil := 2, close_cmd_coil := none,
        move_cmd_coil := none, flex_cmd_coil := none, stop_cmd_coil := none,
        status_open_coil := 3, status_closed_coil := 4, status_grip_coil := 5,
        hr_force_index := 0, hr_diameter_index := 1, hr_griptype_index := 2,
        hr_cmd_index := 3, ir_width_index := 0, min_d := none, max_d := none,
        trace := [] }
      0 6).getD 2 true = false :=
  C10_ready_false_on_status_failure _ _ 0 6 2 rfl rfl (by norm_num) (by norm_num)

/-! ## C6: open/close gripper read guard and write order -/

/-- C6: if the initial max-diameter (min-diameter) register read in
`open_gripper` (`close_gripper`) fails or returns no value, the operation
issues no register writes at all; if the read succeeds (and no write call
raises), the operation writes target force, target diameter, grip type
EXTERNAL and the GRIP control opcode, in exactly that order. -/
theorem C6_read_guard_write_order (dev : Dev) (f : ℤ) :
    ((dev.readReg REG_MAX_DIAMETER = none ∨ dev.readReg REG_MAX_DIAMETER = some []) →
        GripperBase.open_gripper dev f = []) ∧
    (∀ d rest, dev.readReg REG_MAX_DIAMETER = some (d :: rest) →
        (∀ r v, dev.writeFails r v = false) →
        GripperBase.open_gripper dev f =
          [(REG_TARGET_FORCE, f), (REG_TARGET_DIAMETER, d),
           (REG_GRIP_TYPE, GripType.EXTERNAL.value), (REG_CONTROL, CMD_GRIP)]) ∧
    ((dev.readReg REG_MIN_DIAMETER = none ∨ dev.readReg REG_MIN_DIAMETER = some []) →
        GripperBase.close_gripper dev f = []) ∧
    (∀ d rest, dev.readReg REG_MIN_DIAMETER = some (d :: rest) →
        (∀ r v, dev.writeFails r v = false) →
        GripperBase.close_gripper dev f =
          [(REG_TARGET_FORCE, f), (REG_TARGET_DIAMETER, d),
           (REG_GRIP_TYPE, GripType.EXTERNAL.value), (REG_CONTROL, CMD_GRIP)]) := by
  refine ⟨?_, ?_, ?_, ?_⟩
  · rintro (h | h) <;> unfold GripperBase.open_gripper <;> rw [h]
  · intro d rest h hw
    unfold GripperBase.open_gripper
    rw [h]
    simp [issueWrites, hw]
  · rintro (h | h) <;> unfold GripperBase.close_gripper <;> rw [h]
  · intro d rest h hw
    unfold GripperBase.close_gripper
    rw [h]
    simp [issueWrites, hw]

/-- Witness for `C6_read_guard_write_order`: a device whose min/max diameter
reads succeed with [0]/[1000] and whose writes never fail. -/
theorem C6_read_guard_write_order_witness :
    GripperBase.open_gripper
        { readReg := fun r => if r = REG_MAX_DIAMETER then some [1000]
            else if r = REG_MIN_DIAMETER then some [0] else none,
          writeFails := fun _ _ => false } 700 =
      [(REG_TARGET_FORCE, 700), (REG_TARGET_DIAMETER, 1000),
       (REG_GRIP_TYPE, GripType.EXTERNAL.value), (REG_CONTROL, CMD_GRIP)] ∧
    GripperBase.close_gripper
        { readReg := fun r => if r = REG_MAX_DIAMETER then some [1000]
            else if r = REG_MIN_DIAMETER then some [0] else none,
          writeFails := fun _ _ => false } 700 =
      [(REG_TARGET_FORCE, 700), (REG_TARGET_DIAMETER, 0),
       (REG_GRIP_TYPE, GripType.EXTERNAL.value), (REG_CONTROL, CMD_GRIP)] :=
  ⟨(C6_read_guard_write_order _ 700).2.1 1000 [] (by decide) (fun _ _ => rfl),
   (C6_read_guard_write_order _ 700).2.2.2 0 [] (by decide) (fun _ _ => rfl)⟩

/-! ## C3: one-shot command register -/

theorem callBG_eq (g : GripperDevice) (a : GAction) :
    callBG g a = { g with trace := g.trace ++ [a] } := rfl

theorem callBG_callBG (g : GripperDevice) (a b : GAction) :
    callBG (callBG g a) b = { g with trace := g.trace ++ [a, b] } := by
  simp [callBG]

theorem hrForceStep_spec (g : GripperDevice) (address len : Nat) :
    ∃ tr, hrForceStep g address len = { g with trace := g.trace ++ tr } := by
  unfold hrForceStep
  split
  · exact ⟨_, rfl⟩
  · exact ⟨[], by simp⟩

theorem hrDiameterStep_spec (bg : BackingGripper) (g : GripperDevice) (address len : Nat) :
    ∃ tr, hrDiameterStep bg g address len = { g with trace := g.trace ++ tr } := by
  unfold hrDiameterStep
  split
  · dsimp only
    split
    · exact ⟨_, rfl⟩
    · exact ⟨_, callBG_callBG _ _ _⟩
  · exact ⟨[], by simp⟩

/-- The backing-gripper call corresponding to a recognized opcode of the
gateway's command register is present in the trace. -/
def opcodeTriggered (cmd : ℤ) (tr : List GAction) : Prop :=
  if cmd = 1 then ∃ d f gt, GAction.moveGripper d f gt ∈ tr
  else if cmd = 2 then ∃ d f gt, GAction.flexGrip d f gt ∈ tr
  else if cmd = 3 then GAction.setControl CMD_STOP ∈ tr
  else if cmd = 4 then ∃ f, GAction.openGripper f ∈ tr
  else if cmd = 5 then ∃ f, GAction.closeGripper f ∈ tr
  else True

theorem hrCmdStep_spec (g : GripperDevice) (cmd : ℤ)
    (hc : g.hrs.getD g.hr_cmd_index.toNat 0 = cmd)
    (h0 : 0 ≤ g.hr_cmd_index)
    (hlen : g.hr_cmd_index < (g.hrs.length : ℤ))
    (hcmd : cmd = 1 ∨ cmd = 2 ∨ cmd = 3 ∨ cmd = 4 ∨ cmd = 5) :
    (hrCmdStep g g.hr_cmd_index.toNat 1).hrs.getD g.hr_cmd_index.toNat 0 = 0 ∧
    opcodeTriggered cmd (hrCmdStep g g.hr_cmd_index.toNat 1).trace := by
  have hcilen : g.hr_cmd_index.toNat < g.hrs.length := by omega
  unfold hrCmdStep
  rw [if_pos ⟨h0, by omega, by omega, hlen⟩]
  dsimp only
  rw [hc]
  have hwr0 : ∀ l : List ℤ, writeHrs (l.set g.hr_cmd_index.toNat 0) g.hr_cmd_index.toNat [0] =
      (l.set g.hr_cmd_index.toNat 0).set g.hr_cmd_index.toNat 0 := by
    intro l
    have h00 : (0 : ℤ).emod 65536 = 0 := by decide
    simp [writeHrs, h00]
  rcases hcmd with rfl | rfl | rfl | rfl | rfl <;>
      simp only [reduceIte, callBG, hwr0] <;>
      refine ⟨getD_set_self _ _ _ (by simp [hcilen]), ?_⟩ <;>
      simp only [opcodeTriggered, reduceIte]
  · exact ⟨_, _, _, List.mem_append_right _ (List.mem_singleton_self _)⟩
  · exact ⟨_, _, _, List.mem_append_right _ (List.mem_singleton_self _)⟩
  · exact List.mem_append_right _ (List.mem_singleton_self _)
  · exact ⟨_, List.mem_append_right _ (List.mem_singleton_self _)⟩
  · exact ⟨_, List.mem_append_right _ (List.mem_singleton_self _)⟩

theorem get_holding_registers_one (g : GripperDevice) (a : Nat) :
    get_holding_registers g a 1 = [g.hrs.getD (a + 0) 0] := rfl

/-- C3: writing a recognized opcode (1=MOVE, 2=FLEX, 3=STOP, 4=OPEN,
5=CLOSE) to the connected gateway's configured command holding register
issues the corresponding high-level gripper call and then resets the
register to 0 — for *every* backing-gripper oracle, in particular when the
triggered call raises an exception — so a read of the command register
immediately after the write returns 0. -/
theorem C3_cmd_register_one_shot (bg : BackingGripper) (g : GripperDevice) (cmd : ℤ)
    (hconn : g.connected = true)
    (h0 : 0 ≤ g.hr_cmd_index)
    (hlen : g.hr_cmd_index < (g.hrs.length : ℤ))
    (hcmd : cmd = 1 ∨ cmd = 2 ∨ cmd = 3 ∨ cmd = 4 ∨ cmd = 5) :
    get_holding_registers (set_holding_registers bg g g.hr_cmd_index.toNat [cmd])
        g.hr_cmd_index.toNat 1 = [0] ∧
    opcodeTriggered cmd (set_holding_registers bg g g.hr_cmd_index.toNat [cmd]).trace := by
  set ci := g.hr_cmd_index.toNat with hcidef
  have hci : (ci : ℤ) = g.hr_cmd_index := Int.toNat_of_nonneg h0
  have hcilen : ci < g.hrs.length := by omega
  have hemod : cmd.emod 65536 = cmd := by
    rcases hcmd with rfl | rfl | rfl | rfl | rfl <;> decide
  have hwr : writeHrs g.hrs ci [cmd] = g.hrs.set ci cmd := by
    simp [writeHrs, hemod]
  unfold set_holding_registers
  dsimp only
  rw [hwr, if_neg (by simp [hconn])]
  simp only [List.length_singleton]
  obtain ⟨tr2, h2⟩ := hrForceStep_spec { g with hrs := g.hrs.set ci cmd } ci 1
  rw [h2]
  obtain ⟨tr3, h3⟩ := hrDiameterStep_spec bg
    { g with hrs := g.hrs.set ci cmd, trace := g.trace ++ tr2 } ci 1
  rw [h3]
  dsimp only
  have hspec := hrCmdStep_spec
    { g with hrs := g.hrs.set ci cmd, trace := (g.trace ++ tr2) ++ tr3 } cmd
    (by dsimp only; rw [← hcidef]; exact getD_set_self _ _ _ hcilen)
    h0 (by dsimp only; simp only [List.length_set]; exact hlen) hcmd
  obtain ⟨hA, hB⟩ := hspec
  dsimp only at hA hB
  rw [← hcidef] at hA hB
  refine ⟨?_, hB⟩
  rw [get_holding_registers_one, Nat.add_zero, hA]

/-- Concrete gateway used by the C3 witness: connected, command register at
holding-register index 3. -/
def c3Device : GripperDevice :=
  { coils := [false, false, false, false, false, false], hrs := [0, 0, 0, 0],
    dis := [], irs := [0], connected := true,
    open_cmd_coil := 0, status_coil := 2, close_cmd_coil := none,
    move_cmd_coil := none, flex_cmd_coil := none, stop_cmd_coil := none,
    status_open_coil := 3, status_closed_coil := 4, status_grip_coil := 5,
    hr_force_index := 0, hr_diameter_index := 1, hr_griptype_index := 2,
    hr_cmd_index := 3, ir_width_index := 0, min_d := none, max_d := none,
    trace := [] }

/-- Backing gripper used by the C3 witness: every call raises. -/
def c3Backing : BackingGripper :=
  { raises := fun _ => true, statusResult := none, rawDiameterTenths := none }

/-- Witness for `C3_cmd_register_one_shot`: MOVE opcode written to the
command register of a connected gateway whose backing calls all raise. -/
theorem C3_cmd_register_one_shot_witness :
    get_holding_registers (set_holding_registers c3Backing c3Device
        c3Device.hr_cmd_index.toNat [1]) c3Device.hr_cmd_index.toNat 1 = [0] ∧
    opcodeTriggered 1 (set_holding_registers c3Backing c3Device
        c3Device.hr_cmd_index.toNat [1]).trace :=
  C3_cmd_register_one_shot c3Backing c3Device 1 rfl (by norm_num [c3Device])
    (by norm_num [c3Device]) (Or.inl rfl)

/-! ## C4: per-step diameter interpolation -/

theorem updateGripDetection_current_diameter (s : SimState) :
    (updateGripDetection s).current_diameter = s.current_diameter := by
  unfold updateGripDetection; split <;> rfl

/-- C4 amended: while MOVING, each update step sets the current diameter to
`start + int((target − start)·t)` where `start` is the *raw-diameter
register value as rewritten by the previous update step* (it equals the
movement-start diameter only at the first step of a movement), `t` is the
ease-in-out curve of `progress = min(1, elapsed/duration)`, and on
`progress ≥ 1` the diameter is set to the target exactly. -/
theorem C4_amended_update_formula (s : SimState) (a : StepArgs) (t0 : ℚ)
    (hbusy : s.is_busy = true) (ht : s.movement_start_time = some t0) :
    (updateMovement s a).current_diameter =
      (if min 1 ((a.now - t0) / s.movement_duration) ≥ 1 then s.target_diameter
       else ((s.registers REG_RAW_DIAMETER).getD s.current_diameter) +
         pyInt (((s.target_diameter -
             (s.registers REG_RAW_DIAMETER).getD s.current_diameter : ℤ) : ℚ) *
           easeInOut (min 1 ((a.now - t0) / s.movement_duration)))) := by
  unfold updateMovement
  rw [ht]
  dsimp only
  rw [if_neg (show ¬(s.is_busy = false) by simp [hbusy])]
  by_cases hp : min 1 ((a.now - t0) / s.movement_duration) ≥ 1
  · rw [if_pos hp, if_pos hp, updateGripDetection_current_diameter]
  · rw [if_neg hp, if_neg hp]

/-- Concrete mid-movement state for the C4 witness: a fresh simulator whose
movement has just been started at time 0. -/
def c4State : SimState := startMovement (initSim 0 1000 500 1 false) 0

/-- Witness for `C4_amended_update_formula` on `c4State` at time 3/8. -/
theorem C4_amended_update_formula_witness :
    c4State.is_busy = true ∧ c4State.movement_start_time = some 0 ∧
    (updateMovement c4State ⟨3/8, 0, 0, 0⟩).current_diameter =
      (if min 1 (((3:ℚ)/8 - 0) / c4State.movement_duration) ≥ 1 then c4State.target_diameter
       else ((c4State.registers REG_RAW_DIAMETER).getD c4State.current_diameter) +
         pyInt (((c4State.target_diameter -
             (c4State.registers REG_RAW_DIAMETER).getD c4State.current_diameter : ℤ) : ℚ) *
           easeInOut (min 1 (((3:ℚ)/8 - 0) / c4State.movement_duration)))) :=
  ⟨rfl, rfl, C4_amended_update_formula c4State ⟨3/8, 0, 0, 0⟩ 0 rfl rfl⟩

/-- Evaluation of one non-completing update step with noise disabled. -/
theorem updateMovement_step (s : SimState) (a : StepArgs) (t0 : ℚ)
    (hb : s.is_busy = true) (ht : s.movement_start_time = some t0)
    (hn : s.enable_noise = false)
    (hp : min 1 ((a.now - t0) / s.movement_duration) < 1) :
    updateMovement s a =
      (let progress := min 1 ((a.now - t0) / s.movement_duration)
       let start := (s.registers REG_RAW_DIAMETER).getD s.current_diameter
       let dNew := start + pyInt (((s.target_diameter - start : ℤ) : ℚ) * easeInOut progress)
       let fNew := if 0 < |s.target_diameter - start| then
           pyInt ((s.target_force : ℚ) * min 1 (progress * 2)) else s.target_force
       { s with current_diameter := dNew, current_force := fNew,
                registers := regSet (regSet (regSet (regSet s.registers
                  REG_RAW_DIAMETER dNew) REG_DIAMETER_OFFSET dNew)
                  REG_FORCE_APPLIED fNew)
                  REG_STATUS (calculateStatusRegister s) }) := by
  unfold updateMovement
  rw [ht]
  dsimp only
  rw [if_neg (show ¬(s.is_busy = false) by simp [hb])]
  rw [if_neg (not_le.mpr hp)]
  simp only [addNoise, hn, Bool.false_eq_true, if_false]
  rfl

/-- Evaluation of a completing update step (`progress ≥ 1`) with noise
disabled, in the case where the final diameter is below the grip-detection
threshold. -/
theorem updateMovement_complete (s : SimState) (a : StepArgs) (t0 : ℚ)
    (hb : s.is_busy = true) (ht : s.movement_start_time = some t0)
    (hn : s.enable_noise = false)
    (hp : min 1 ((a.now - t0) / s.movement_duration) ≥ 1)
    (hgrip : (s.target_diameter : ℚ) < (s.max_diameter : ℚ) * (9/10)) :
    updateMovement s a =
      (let fg := decide ((s.target_force : ℚ) * (8/10) < (s.target_force : ℚ))
       let sDone : SimState :=
         { s with is_busy := false, movement_start_time := none,
                  current_diameter := s.target_diameter,
                  current_force := s.target_force,
                  grip_detected := true, force_grip_detected := fg }
       let regs1 := regSet s.registers REG_RAW_DIAMETER s.target_diameter
       let regs2 := regSet regs1 REG_DIAMETER_OFFSET s.target_diameter
       let regs3 := regSet regs2 REG_FORCE_APPLIED s.target_force
       { sDone with registers := regSet regs3 REG_STATUS (calculateStatusRegister sDone) }) := by
  unfold updateMovement
  rw [ht]
  dsimp only
  rw [if_neg (show ¬(s.is_busy = false) by simp [hb])]
  rw [if_pos hp]
  unfold updateGripDetection
  dsimp only
  rw [if_pos hgrip]
  simp only [addNoise, hn, Bool.false_eq_true, if_false]

theorem write_register_force_eq (s : SimState) (v : ℤ) (tW : ℚ) (a : StepArgs) :
    write_register s REG_TARGET_FORCE v tW a =
      .ok (updateMovement
        { s with target_force := max 0 (min 1000 v)
                 registers := regSet s.registers REG_TARGET_FORCE v } a) := rfl

theorem write_register_diameter_eq (s : SimState) (v : ℤ) (tW : ℚ) (a : StepArgs) :
    write_register s REG_TARGET_DIAMETER v tW a =
      .ok (updateMovement
        { s with target_diameter := max s.min_diameter (min s.max_diameter v)
                 registers := regSet s.registers REG_TARGET_DIAMETER v } a) := rfl

theorem write_register_griptype_ext_eq (s : SimState) (tW : ℚ) (a : StepArgs) :
    write_register s REG_GRIP_TYPE 0 tW a =
      .ok (updateMovement
        { s with grip_type := GripType.EXTERNAL
                 registers := regSet s.registers REG_GRIP_TYPE 0 } a) := rfl

theorem write_register_control_start (s : SimState) (v : ℤ) (tW : ℚ) (a : StepArgs)
    (hv : v = CMD_GRIP ∨ v = CMD_MOVE ∨ v = CMD_FLEXIBLE_GRIP) :
    write_register s REG_CONTROL v tW a =
      .ok (updateMovement
        { startMovement s tW with
            registers := regSet s.registers REG_CONTROL v } a) := by
  unfold write_register
  rw [if_neg (by decide), if_neg (by decide), if_neg (by decide), if_pos rfl, if_pos hv]
  rfl

/-- State of the C4 run after writing target diameter 0. -/
def c4s1 : SimState :=
  { initSim 0 1000 500 1 false with
      target_diameter := 0
      registers := regSet (initSim 0 1000 500 1 false).registers REG_TARGET_DIAMETER 0 }

/-- State of the C4 run right after the MOVE opcode started the movement at
time 0 (before the trailing update of that write). -/
def c4s2 : SimState :=
  { c4s1 with
      is_busy := true
      movement_start_time := some 0
      movement_duration := (1/2) / 1
      registers := regSet c4s1.registers REG_CONTROL 2 }

theorem c4e1 :
    write_register (initSim 0 1000 500 1 false) REG_TARGET_DIAMETER 0 0 ⟨0, 0, 0, 0⟩ =
      .ok c4s1 := by
  rw [write_register_diameter_eq, updateMovement_not_busy _ _ rfl]
  rfl

theorem c4e2 :
    write_register c4s1 REG_CONTROL CMD_MOVE 0 ⟨0, 0, 0, 0⟩ =
      .ok (updateMovement c4s2 ⟨0, 0, 0, 0⟩) := by
  rw [write_register_control_start _ _ _ _ (Or.inr (Or.inl rfl))]
  rfl

/-- State of the C4 run after the trailing update of the MOVE write
(progress 0). -/
def c4s3 : SimState :=
  { c4s2 with
      current_diameter := 1000
      current_force := 0
      registers := regSet (regSet (regSet (regSet c4s2.registers
        REG_RAW_DIAMETER 1000) REG_DIAMETER_OFFSET 1000) REG_FORCE_APPLIED 0)
        REG_STATUS 9 }

theorem c4e3 : updateMovement c4s2 ⟨0, 0, 0, 0⟩ = c4s3 := by
  rw [updateMovement_step c4s2 ⟨0, 0, 0, 0⟩ 0 rfl rfl rfl
    (by rw [show c4s2.movement_duration = (1/2)/1 from rfl]; norm_num)]
  dsimp only
  rw [show (c4s2.registers REG_RAW_DIAMETER).getD c4s2.current_diameter = 1000 from rfl]
  rw [show c4s2.target_diameter = 0 from rfl, show c4s2.target_force = 500 from rfl]
  rw [show min 1 (((0:ℚ) - 0) / c4s2.movement_duration) = 0 from by
    rw [show c4s2.movement_duration = (1/2)/1 from rfl]; norm_num]
  rw [show pyInt (((0 - 1000 : ℤ) : ℚ) * easeInOut 0) = 0 from by
    norm_num [easeInOut, pyInt]]
  rw [if_pos (show (0:ℤ) < |0 - 1000| from by norm_num)]
  rw [show pyInt (((500 : ℤ) : ℚ) * (1 ⊓ (0:ℚ) * 2)) = 0 from by
    norm_num [pyInt]]
  rfl

/-- State of the C4 run after the update at time 1/4 (progress 1/2). -/
def c4s4 : SimState :=
  { c4s3 with
      current_diameter := 500
      current_force := 500
      registers := regSet (regSet (regSet (regSet c4s3.registers
        REG_RAW_DIAMETER 500) REG_DIAMETER_OFFSET 500) REG_FORCE_APPLIED 500)
        REG_STATUS 9 }

theorem c4e4 : updateMovement c4s3 ⟨1/4, 0, 0, 0⟩ = c4s4 := by
  rw [updateMovement_step c4s3 ⟨1/4, 0, 0, 0⟩ 0 rfl rfl rfl
    (by rw [show c4s3.movement_duration = (1/2)/1 from rfl]; norm_num)]
  dsimp only
  rw [show (c4s3.registers REG_RAW_DIAMETER).getD c4s3.current_diameter = 1000 from rfl]
  rw [show c4s3.target_diameter = 0 from rfl, show c4s3.target_force = 500 from rfl]
  rw [show min 1 (((1:ℚ)/4 - 0) / c4s3.movement_duration) = 1/2 from by
    rw [show c4s3.movement_duration = (1/2)/1 from rfl]; norm_num]
  rw [show pyInt (((0 - 1000 : ℤ) : ℚ) * easeInOut (1/2)) = -500 from by
    have harg : (((0 - 1000 : ℤ) : ℚ) * easeInOut (1/2)) = ((-500 : ℤ) : ℚ) := by
      norm_num [easeInOut]
    rw [pyInt, harg, Rat.num_intCast, Rat.den_intCast]
    norm_num [Int.tdiv_one]]
  rw [if_pos (show (0:ℤ) < |0 - 1000| from by norm_num)]
  rw [show pyInt (((500 : ℤ) : ℚ) * (1 ⊓ (1:ℚ)/2 * 2)) = 500 from by
    have harg : (((500 : ℤ) : ℚ) * (1 ⊓ (1:ℚ)/2 * 2)) = ((500 : ℤ) : ℚ) := by norm_num
    rw [pyInt, harg, Rat.num_intCast, Rat.den_intCast]
    norm_num [Int.tdiv_one]]
  rfl

theorem c4e5 : (updateMovement c4s4 ⟨3/8, 0, 0, 0⟩).current_diameter = 63 := by
  rw [updateMovement_step c4s4 ⟨3/8, 0, 0, 0⟩ 0 rfl rfl rfl
    (by rw [show c4s4.movement_duration = (1/2)/1 from rfl]; norm_num)]
  dsimp only
  rw [show (c4s4.registers REG_RAW_DIAMETER).getD c4s4.current_diameter = 500 from rfl]
  rw [show c4s4.target_diameter = 0 from rfl]
  rw [show min 1 (((3:ℚ)/8 - 0) / c4s4.movement_duration) = 3/4 from by
    rw [show c4s4.movement_duration = (1/2)/1 from rfl]; norm_num]
  rw [show pyInt (((0 - 500 : ℤ) : ℚ) * easeInOut (3/4)) = -437 from by
    have harg : (((0 - 500 : ℤ) : ℚ) * easeInOut (3/4)) = -875/2 := by
      norm_num [easeInOut]
    have hnum : ((-875/2 : ℚ)).num = -875 := by norm_num
    have hden : ((-875/2 : ℚ)).den = 2 := by norm_num
    rw [pyInt, harg, hnum, hden]
    decide]
  norm_num

/-- C4 counterexample: with the movement started at diameter 1000 toward
target 0 (duration 0.5), the update at progress 3/4 computes diameter 63 —
its `start` is the raw-diameter register rewritten to 500 by the previous
update at progress 1/2 — while the claim's fixed-movement-start formula
`start + (target − start)·t` with `start = 1000` (the diameter when the
movement began) and `t = easeInOut(3/4) = 7/8` gives 125. -/
theorem C4_counterexample :
    ((write_register (initSim 0 1000 500 1 false) REG_TARGET_DIAMETER 0 0 ⟨0, 0, 0, 0⟩).bind
        fun s1 => (write_register s1 REG_CONTROL CMD_MOVE 0 ⟨0, 0, 0, 0⟩).map
          fun s2 => (s2.current_diameter,
            (updateMovement (updateMovement s2 ⟨1/4, 0, 0, 0⟩) ⟨3/8, 0, 0, 0⟩).current_diameter))
      = .ok (1000, 63) ∧
    (1000 : ℤ) + pyInt (((0 - 1000 : ℤ) : ℚ) * easeInOut (3/4)) = 125 ∧
    (63 : ℤ) ≠ 125 := by
  refine ⟨?_, ?_, by norm_num⟩
  · rw [c4e1]
    dsimp only [Except.bind]
    rw [c4e2]
    rw [c4e3]
    dsimp only [Except.map]
    rw [c4e4, c4e5]
    rfl
  · rw [show pyInt (((0 - 1000 : ℤ) : ℚ) * easeInOut (3/4)) = -875 from by
      have harg : (((0 - 1000 : ℤ) : ℚ) * easeInOut (3/4)) = ((-875 : ℤ) : ℚ) := by
        norm_num [easeInOut]
      rw [pyInt, harg, Rat.num_intCast, Rat.den_intCast]
      norm_num [Int.tdiv_one]]
    norm_num

/-! ## C1: close_gripper scenario -/

/-- Invariant of the C1 scenario: targets pinned at diameter 0 / force 700
on a 1000-max engine, and whenever the engine is not busy the motion has
completed with both detection flags set. -/
def C1Inv (s : SimState) : Prop :=
  s.target_diameter = 0 ∧ s.target_force = 700 ∧ s.max_diameter = 1000 ∧
  (s.is_busy = false →
    s.current_diameter = 0 ∧ s.current_force = 700 ∧
    s.grip_detected = true ∧ s.force_grip_detected = true)

theorem C1Inv_update (s : SimState) (a : StepArgs) (h : C1Inv s) :
    C1Inv (updateMovement s a) := by
  obtain ⟨hd, hf, hm, hb⟩ := h
  unfold updateMovement
  cases hms : s.movement_start_time with
  | none => exact ⟨hd, hf, hm, hb⟩
  | some t0 =>
    dsimp only
    by_cases hbusy : s.is_busy = false
    · rw [if_pos hbusy]
      exact ⟨hd, hf, hm, hb⟩
    · rw [if_neg hbusy]
      by_cases hp : min 1 ((a.now - t0) / s.movement_duration) ≥ 1
      · rw [if_pos hp]
        unfold updateGripDetection
        dsimp only
        rw [if_pos (show ((s.target_diameter : ℚ)) < (s.max_diameter : ℚ) * (9/10) by
          rw [hd, hm]; norm_num)]
        refine ⟨hd, hf, hm, fun _ => ⟨hd, hf, rfl, ?_⟩⟩
        dsimp only
        rw [hf]
        simp only [decide_eq_true_eq]
        push_cast
        norm_num
      · rw [if_neg hp]
        exact ⟨hd, hf, hm, fun hfalse => absurd hfalse hbusy⟩

theorem C1Inv_applyUpdates (l : List StepArgs) (s : SimState) (h : C1Inv s) :
    C1Inv (applyUpdates s l) := by
  induction l generalizing s with
  | nil => exact h
  | cons a rest ih => exact ih _ (C1Inv_update s a h)

theorem ok_bind {α β ε : Type} (a : α) (f : α → Except ε β) :
    (Except.ok a >>= f) = f a := rfl

/-- State of the C1 scenario after `set_target_force(700)`. -/
def c1sA (fl : ℤ) (speed : ℚ) (noise : Bool) : SimState :=
  { initSim 0 1000 fl speed noise with
      target_force := 700
      registers := regSet (initSim 0 1000 fl speed noise).registers REG_TARGET_FORCE 700 }

/-- State of the C1 scenario after `set_target_diameter(0)`. -/
def c1sB (fl : ℤ) (speed : ℚ) (noise : Bool) : SimState :=
  { c1sA fl speed noise with
      target_diameter := 0
      registers := regSet (c1sA fl speed noise).registers REG_TARGET_DIAMETER 0 }

/-- State of the C1 scenario after `set_grip_type(EXTERNAL)`. -/
def c1sC (fl : ℤ) (speed : ℚ) (noise : Bool) : SimState :=
  { c1sB fl speed noise with
      grip_type := GripType.EXTERNAL
      registers := regSet (c1sB fl speed noise).registers REG_GRIP_TYPE 0 }

/-- State of the C1 scenario right after the GRIP opcode started the
movement at time `t` (before the trailing update of that write). -/
def c1sD (fl : ℤ) (speed : ℚ) (noise : Bool) (t : ℚ) : SimState :=
  { startMovement (c1sC fl speed noise) t with
      registers := regSet (c1sC fl speed noise).registers REG_CONTROL CMD_GRIP }

theorem c1run (fl : ℤ) (speed : ℚ) (noise : Bool) (a0 : StepArgs)
    (w1 w2 w3 w4 : WriteArgs) :
    close_gripper (initSim 0 1000 fl speed noise) 700 a0 w1 w2 w3 w4 =
      .ok (updateMovement (c1sD fl speed noise w4.t) w4.upd) := by
  have hread : read_registers (initSim 0 1000 fl speed noise) REG_MIN_DIAMETER 1 a0 =
      ([0], initSim 0 1000 fl speed noise) := by
    unfold read_registers
    rw [updateMovement_not_busy _ _ rfl]
    rfl
  unfold close_gripper
  dsimp only
  rw [hread]
  dsimp only
  rw [write_register_force_eq, updateMovement_not_busy _ _ rfl]
  simp only [ok_bind]
  rw [show ({ initSim 0 1000 fl speed noise with
        target_force := max 0 (min 1000 700)
        registers := regSet (initSim 0 1000 fl speed noise).registers REG_TARGET_FORCE 700 } :
      SimState) = c1sA fl speed noise from rfl]
  rw [write_register_diameter_eq, updateMovement_not_busy _ _ rfl]
  simp only [ok_bind]
  rw [show ({ c1sA fl speed noise with
        target_diameter := max (c1sA fl speed noise).min_diameter
          (min (c1sA fl speed noise).max_diameter 0)
        registers := regSet (c1sA fl speed noise).registers REG_TARGET_DIAMETER 0 } :
      SimState) = c1sB fl speed noise from rfl]
  dsimp only [GripType.value]
  rw [write_register_griptype_ext_eq, updateMovement_not_busy _ _ rfl]
  simp only [ok_bind]
  rw [show ({ c1sB fl speed noise with
        grip_type := GripType.EXTERNAL
        registers := regSet (c1sB fl speed noise).registers REG_GRIP_TYPE 0 } :
      SimState) = c1sC fl speed noise from rfl]
  rw [write_register_control_start _ _ _ _ (Or.inl rfl)]
  rfl

/-- C1 amended: on the simulated engine constructed with max_diameter=1000
and min_diameter=0, after `close_gripper(force_val=700)` and any sequence of
update steps ending with the engine no longer busy, the final state has
current diameter 0, current force 700, `grip_detected = true` and
`force_grip_detected = true` — the strict comparison `700 > 0.8·700 = 560`
holds, so force grip *is* detected (the claim's expected `false` does not
match the code). -/
theorem C1_amended_close_scenario (fl : ℤ) (speed : ℚ) (noise : Bool)
    (a0 : StepArgs) (w1 w2 w3 w4 : WriteArgs) (steps : List StepArgs)
    (hspeed : 0 < speed) :
    ∃ s1, close_gripper (initSim 0 1000 fl speed noise) 700 a0 w1 w2 w3 w4 = .ok s1 ∧
      ((applyUpdates s1 steps).is_busy = false →
        (applyUpdates s1 steps).current_diameter = 0 ∧
        (applyUpdates s1 steps).current_force = 700 ∧
        (applyUpdates s1 steps).grip_detected = true ∧
        (applyUpdates s1 steps).force_grip_detected = true) := by
  refine ⟨updateMovement (c1sD fl speed noise w4.t) w4.upd,
    c1run fl speed noise a0 w1 w2 w3 w4, fun hb => ?_⟩
  exact (C1Inv_applyUpdates steps _ (C1Inv_update _ _
    ⟨rfl, rfl, rfl,
     fun hfalse => absurd (show (true : Bool) = false from hfalse) (by simp)⟩)).2.2.2 hb

/-- State of the concrete C1 run after the trailing update of the GRIP
write (progress 0). -/
def c1s5 : SimState :=
  { c1sD 500 1 false 0 with
      current_diameter := 1000
      current_force := 0
      registers := regSet (regSet (regSet (regSet (c1sD 500 1 false 0).registers
        REG_RAW_DIAMETER 1000) REG_DIAMETER_OFFSET 1000) REG_FORCE_APPLIED 0)
        REG_STATUS 9 }

theorem c1e5 : updateMovement (c1sD 500 1 false 0) ⟨0, 0, 0, 0⟩ = c1s5 := by
  rw [updateMovement_step (c1sD 500 1 false 0) ⟨0, 0, 0, 0⟩ 0 rfl rfl rfl
    (by rw [show (c1sD 500 1 false 0).movement_duration = (1/2)/1 from rfl]; norm_num)]
  dsimp only
  rw [show ((c1sD 500 1 false 0).registers REG_RAW_DIAMETER).getD
      (c1sD 500 1 false 0).current_diameter = 1000 from rfl]
  rw [show (c1sD 500 1 false 0).target_diameter = 0 from rfl,
      show (c1sD 500 1 false 0).target_force = 700 from rfl]
  rw [show min 1 (((0:ℚ) - 0) / (c1sD 500 1 false 0).movement_duration) = 0 from by
    rw [show (c1sD 500 1 false 0).movement_duration = (1/2)/1 from rfl]; norm_num]
  rw [show pyInt (((0 - 1000 : ℤ) : ℚ) * easeInOut 0) = 0 from by
    norm_num [easeInOut, pyInt]]
  rw [if_pos (show (0:ℤ) < |0 - 1000| from by norm_num)]
  rw [show pyInt (((700 : ℤ) : ℚ) * (1 ⊓ (0:ℚ) * 2)) = 0 from by norm_num [pyInt]]
  rfl

/-- Final state of the concrete C1 run after the completing update at
time 1. -/
def c1s6 : SimState :=
  { c1s5 with
      is_busy := false
      movement_start_time := none
      current_diameter := 0
      current_force := 700
      grip_detected := true
      force_grip_detected := true
      registers := regSet (regSet (regSet (regSet c1s5.registers
        REG_RAW_DIAMETER 0) REG_DIAMETER_OFFSET 0) REG_FORCE_APPLIED 700)
        REG_STATUS 14 }

theorem c1e6 : updateMovement c1s5 ⟨1, 0, 0, 0⟩ = c1s6 := by
  rw [updateMovement_complete c1s5 ⟨1, 0, 0, 0⟩ 0 rfl rfl rfl
    (by rw [show c1s5.movement_duration = (1/2)/1 from rfl]; norm_num)
    (by rw [show c1s5.target_diameter = 0 from rfl,
            show c1s5.max_diameter = 1000 from rfl]
        push_cast
        norm_num)]
  dsimp only
  rw [show c1s5.target_diameter = 0 from rfl, show c1s5.target_force = 700 from rfl]
  rw [show decide ((((700:ℤ) : ℚ)) * (8/10) < (((700:ℤ) : ℚ))) = true from by
    simp only [decide_eq_true_eq]
    push_cast
    norm_num]
  rfl

/-- C1 counterexample: the concrete close_gripper(700) run on the engine
with max 1000 / min 0, updated until no longer busy, ends with
`force_grip_detected = true` (since 700 > 0.8·700 = 560), not `false` as
the claim states. -/
theorem C1_counterexample :
    ((close_gripper (initSim 0 1000 500 1 false) 700 ⟨0, 0, 0, 0⟩
        ⟨0, ⟨0, 0, 0, 0⟩⟩ ⟨0, ⟨0, 0, 0, 0⟩⟩ ⟨0, ⟨0, 0, 0, 0⟩⟩ ⟨0, ⟨0, 0, 0, 0⟩⟩).map
      fun s1 =>
        ((applyUpdates s1 [⟨1, 0, 0, 0⟩]).is_busy,
         (applyUpdates s1 [⟨1, 0, 0, 0⟩]).current_diameter,
         (applyUpdates s1 [⟨1, 0, 0, 0⟩]).current_force,
         (applyUpdates s1 [⟨1, 0, 0, 0⟩]).grip_detected,
         (applyUpdates s1 [⟨1, 0, 0, 0⟩]).force_grip_detected))
      = .ok (false, 0, 700, true, true) ∧
    ((false, 0, 700, true, (true : Bool)) ≠
      ((false, 0, 700, true, (false : Bool)) : Bool × ℤ × ℤ × Bool × Bool)) := by
  refine ⟨?_, by decide⟩
  rw [c1run]
  dsimp only [Except.map]
  rw [c1e5]
  dsimp only [applyUpdates, List.foldl]
  rw [c1e6]
  rfl

/-- Witness for `C1_amended_close_scenario` at finger length 500, speed 1,
noise disabled, all call times 0 and a single completing update at time 1. -/
theorem C1_amended_close_scenario_witness :
    (0 : ℚ) < 1 ∧
    (∃ s1, close_gripper (initSim 0 1000 500 1 false) 700 ⟨0, 0, 0, 0⟩
        ⟨0, ⟨0, 0, 0, 0⟩⟩ ⟨0, ⟨0, 0, 0, 0⟩⟩ ⟨0, ⟨0, 0, 0, 0⟩⟩ ⟨0, ⟨0, 0, 0, 0⟩⟩ = .ok s1 ∧
      ((applyUpdates s1 [⟨1, 0, 0, 0⟩]).is_busy = false →
        (applyUpdates s1 [⟨1, 0, 0, 0⟩]).current_diameter = 0 ∧
        (applyUpdates s1 [⟨1, 0, 0, 0⟩]).current_force = 700 ∧
        (applyUpdates s1 [⟨1, 0, 0, 0⟩]).grip_detected = true ∧
        (applyUpdates s1 [⟨1, 0, 0, 0⟩]).force_grip_detected = true)) :=
  ⟨by norm_num,
   C1_amended_close_scenario 500 1 false ⟨0, 0, 0, 0⟩ ⟨0, ⟨0, 0, 0, 0⟩⟩ ⟨0, ⟨0, 0, 0, 0⟩⟩
     ⟨0, ⟨0, 0, 0, 0⟩⟩ ⟨0, ⟨0, 0, 0, 0⟩⟩ [⟨1, 0, 0, 0⟩] (by norm_num)⟩
